import Mathlib

/-!
Verification of the bouncing-circles physics core.

The JavaScript sources are embedded shallowly over the exact rationals.
JS numbers are modelled as rationals; every square root that the
source computes with Math.sqrt or Math.hypot is passed to the embedded
function as an explicit argument, and the theorems constrain that
argument by the defining property of the square root (nonnegative, and
its square equals the radicand).  Division on the rationals is total
with x / 0 = 0; wherever definedness of a JS division matters the
development also provides an Option-valued variant using checked
division.
-/

namespace BC

/-- Math.abs on the rational model of JS numbers. -/
def jsAbs (q : ℚ) : ℚ := if q < 0 then -q else q

theorem jsAbs_eq_abs (q : ℚ) : jsAbs q = |q| := by
  unfold jsAbs
  rcases lt_or_le q 0 with h | h
  · rw [if_pos h, abs_of_neg h]
  · rw [if_neg (not_lt.mpr h), abs_of_nonneg h]

/-! ## Variant A: the canvas impulse engine (unnamed/part_002)

Circle model of part_002: fields x, y, r, vx, vy and the stored
mass (set to r * r at construction). -/

structure Circle2 where
  x : ℚ
  y : ℚ
  r : ℚ
  vx : ℚ
  vy : ℚ
  mass : ℚ
deriving DecidableEq

/-- Restitution against walls, part_002 line 60. -/
def WALL_BOUNCE : ℚ := 92 / 100

/-- Restitution between circles, part_002 line 61. -/
def COLLISION_BOUNCE : ℚ := 98 / 100

/-- Embeds resolveCircleCollision (part_002 lines 205-252).  The
argument dist stands for the value Math.hypot(dx, dy) computed by the
source; theorems constrain it to be the true square root. -/
def resolveCircleCollision (a b : Circle2) (dist : ℚ) : Circle2 × Circle2 :=
  let dx := b.x - a.x
  let dy := b.y - a.y
  let minDist := a.r + b.r
  if dist = 0 ∨ dist ≥ minDist then (a, b)
  else
    let nx := dx / dist
    let ny := dy / dist
    let penetration := minDist - dist
    let totalMass := a.mass + b.mass
    let aShare := b.mass / totalMass
    let bShare := a.mass / totalMass
    let a1 := { a with x := a.x - nx * penetration * aShare,
                       y := a.y - ny * penetration * aShare }
    let b1 := { b with x := b.x + nx * penetration * bShare,
                       y := b.y + ny * penetration * bShare }
    let rvx := b1.vx - a1.vx
    let rvy := b1.vy - a1.vy
    let velAlongNormal := rvx * nx + rvy * ny
    if velAlongNormal > 0 then (a1, b1)
    else
      let e := COLLISION_BOUNCE
      let invMassA := 1 / a.mass
      let invMassB := 1 / b.mass
      let j := -(1 + e) * velAlongNormal / (invMassA + invMassB)
      let ix := j * nx
      let iy := j * ny
      ({ a1 with vx := a1.vx - ix * invMassA, vy := a1.vy - iy * invMassA },
       { b1 with vx := b1.vx + ix * invMassB, vy := b1.vy + iy * invMassB })

/-- Embeds resolveWallCollision (part_002 lines 254-275); w and h are
the canvas width and height. -/
def resolveWallCollision (w h : ℚ) (c : Circle2) : Circle2 :=
  let c1 :=
    if c.x - c.r < 0 then { c with x := c.r, vx := jsAbs c.vx * WALL_BOUNCE }
    else if c.x + c.r > w then { c with x := w - c.r, vx := -(jsAbs c.vx) * WALL_BOUNCE }
    else c
  if c1.y - c1.r < 0 then { c1 with y := c1.r, vy := jsAbs c1.vy * WALL_BOUNCE }
  else if c1.y + c1.r > h then { c1 with y := h - c1.r, vy := -(jsAbs c1.vy) * WALL_BOUNCE }
  else c1

/-- Embeds the dt clamp of part_002 line 283: Math.min(0.033, elapsed). -/
def stepDtClamp (elapsed : ℚ) : ℚ := min (33 / 1000) elapsed

/-- Embeds clamp (part_002 lines 36-38): Math.max(lo, Math.min(hi, v)). -/
def clampQ (v lo hi : ℚ) : ℚ := max lo (min hi v)

/-- Embeds overlapsAny (part_002 lines 93-99). -/
def overlapsAny (circles : List Circle2) (x y r : ℚ) : Bool :=
  circles.any fun c =>
    decide ((x - c.x) * (x - c.x) + (y - c.y) * (y - c.y) < (r + c.r) * (r + c.r))

/-- Embeds the retry loop of spawnCircle (part_002 lines 117-122): while
fewer than 60 tries remain and the current position overlaps, resample.
The sample list holds the successive random positions (one per try). -/
def spawnRetryLoop (circles : List Circle2) (r : ℚ) :
    List (ℚ × ℚ) → ℚ × ℚ → ℚ × ℚ
  | [], p => p
  | s :: rest, p =>
    if overlapsAny circles p.1 p.2 r then spawnRetryLoop circles r rest s else p

/-- Embeds spawnCircle (part_002 lines 101-125).  The random radius,
initial position, retry samples and initial velocity are arguments;
note that the circle is pushed unconditionally after the retry loop,
and that the stored mass is r * r (part_002 line 85). -/
def spawnCircle (w h : ℚ) (circles : List Circle2) (r x0 y0 : ℚ)
    (samples : List (ℚ × ℚ)) (vx vy : ℚ) : List Circle2 :=
  let sx := clampQ x0 r (w - r)
  let sy := clampQ y0 r (h - r)
  let p := spawnRetryLoop circles r samples (sx, sy)
  circles ++ [{ x := p.1, y := p.2, r := r, vx := vx, vy := vy, mass := r * r }]

/-! ## Variant B: the WebGL class engine
(BouncingCirclesPWA2025MAC/circle.js, BouncingCirclesPWA2025MAC/main.js
and the collisions.js module appended to main.js and service-worker.js) -/

structure CircleMAC where
  xlow : ℚ
  xhigh : ℚ
  ylow : ℚ
  yhigh : ℚ
  size : ℚ
  x : ℚ
  y : ℚ
  dx : ℚ
  dy : ℚ
deriving DecidableEq

/-- circle.js line 4. -/
def BALL_WALL_FRICTION : ℚ := 9 / 10

/-- circle.js line 6. -/
def BALL_BALL_FRICTION : ℚ := 9 / 10

/-- Embeds Circle.ballWall (circle.js lines 49-63): four sequential if
statements that reflect the velocity when the predicted next position
would cross a wall; the position is never modified. -/
def ballWall (DT : ℚ) (c : CircleMAC) : CircleMAC :=
  let c1 := if c.x + c.dx * DT + c.size > c.xhigh
            then { c with dx := -(jsAbs c.dx) * BALL_WALL_FRICTION } else c
  let c2 := if c1.x + c1.dx * DT - c1.size < c1.xlow
            then { c1 with dx := jsAbs c1.dx * BALL_WALL_FRICTION } else c1
  let c3 := if c2.y + c2.dy * DT + c2.size > c2.yhigh
            then { c2 with dy := -(jsAbs c2.dy) * BALL_WALL_FRICTION } else c2
  if c3.y + c3.dy * DT - c3.size < c3.ylow
  then { c3 with dy := jsAbs c3.dy * BALL_WALL_FRICTION } else c3

/-- Embeds Circle.positions (circle.js lines 89-93). -/
def positions (DT : ℚ) (c : CircleMAC) : CircleMAC :=
  { c with x := c.x + c.dx * DT, y := c.y + c.dy * DT }

/-- Embeds collideParticles (collisions.js, appended to
BouncingCirclesPWA2025MAC/main.js lines 211-281).  The argument dist
stands for Math.sqrt(xDiff * xDiff + yDiff * yDiff) on the predicted
next positions; f is the collisionFriction parameter. -/
def collideParticles (p1 p2 : CircleMAC) (DT f dist : ℚ) : CircleMAC × CircleMAC :=
  let v1x := p1.dx * DT
  let v1y := p1.dy * DT
  let v2x := p2.dx * DT
  let v2y := p2.dy * DT
  let m1 := p1.size * p1.size
  let m2 := p2.size * p2.size
  if dist < 1 / 100000000 then (p1, p2)
  else
    let x1n := p1.x + p1.dx * DT
    let y1n := p1.y + p1.dy * DT
    let x2n := p2.x + p2.dx * DT
    let y2n := p2.y + p2.dy * DT
    let xDiff := x1n - x2n
    let yDiff := y1n - y2n
    let nX := xDiff / dist
    let nY := yDiff / dist
    let tX := nY
    let tY := -nX
    let totalMass := m1 + m2
    let cmx := (v1x * m1 + v2x * m2) / totalMass
    let cmy := (v1y * m1 + v2y * m2) / totalMass
    let u1x := (m2 / totalMass) * (v1x - v2x)
    let u1y := (m2 / totalMass) * (v1y - v2y)
    let u2x := (m1 / totalMass) * (v2x - v1x)
    let u2y := (m1 / totalMass) * (v2y - v1y)
    let t1 := u1x * tX + u1y * tY
    let t2 := u2x * tX + u2y * tY
    let n1 := u1x * nX + u1y * nY
    let n2 := u2x * nX + u2y * nY
    let f1x := t1 * tX - n1 * nX + cmx
    let f1y := t1 * tY - n1 * nY + cmy
    let f2x := t2 * tX - n2 * nX + cmx
    let f2y := t2 * tY - n2 * nY + cmy
    ({ p1 with dx := f1x * f / DT, dy := f1y * f / DT },
     { p2 with dx := f2x * f / DT, dy := f2y * f / DT })

/-- Checked division: none models a JS division producing a non-finite
number (denominator zero on finite operands). -/
def divF (a b : ℚ) : Option ℚ := if b = 0 then none else some (a / b)

/-- Definedness-tracking variant of collideParticles: identical
structure, but every division the source performs is checked, so the
result is none exactly when some division in the source would produce
a non-finite number. -/
def collideParticlesF (p1 p2 : CircleMAC) (DT f dist : ℚ) :
    Option (CircleMAC × CircleMAC) :=
  let v1x := p1.dx * DT
  let v1y := p1.dy * DT
  let v2x := p2.dx * DT
  let v2y := p2.dy * DT
  let m1 := p1.size * p1.size
  let m2 := p2.size * p2.size
  if dist < 1 / 100000000 then some (p1, p2)
  else
    let x1n := p1.x + p1.dx * DT
    let y1n := p1.y + p1.dy * DT
    let x2n := p2.x + p2.dx * DT
    let y2n := p2.y + p2.dy * DT
    let xDiff := x1n - x2n
    let yDiff := y1n - y2n
    do
    let nX ← divF xDiff dist
    let nY ← divF yDiff dist
    let tX := nY
    let tY := -nX
    let totalMass := m1 + m2
    let cmx ← divF (v1x * m1 + v2x * m2) totalMass
    let cmy ← divF (v1y * m1 + v2y * m2) totalMass
    let r1 ← divF m2 totalMass
    let r2 ← divF m1 totalMass
    let u1x := r1 * (v1x - v2x)
    let u1y := r1 * (v1y - v2y)
    let u2x := r2 * (v2x - v1x)
    let u2y := r2 * (v2y - v1y)
    let t1 := u1x * tX + u1y * tY
    let t2 := u2x * tX + u2y * tY
    let n1 := u1x * nX + u1y * nY
    let n2 := u2x * nX + u2y * nY
    let f1x := t1 * tX - n1 * nX + cmx
    let f1y := t1 * tY - n1 * nY + cmy
    let f2x := t2 * tX - n2 * nX + cmx
    let f2y := t2 * tY - n2 * nY + cmy
    let d1x ← divF (f1x * f) DT
    let d1y ← divF (f1y * f) DT
    let d2x ← divF (f2x * f) DT
    let d2y ← divF (f2y * f) DT
    some ({ p1 with dx := d1x, dy := d1y }, { p2 with dx := d2x, dy := d2y })

/-- Embeds one iteration of the j loop of Circle.ballBall in
service-worker.js (lines 130-173): predicted-position detection, the
half-and-half positional correction, then collideParticles.  d1 stands
for Math.sqrt(dsquared) of the predicted separation; d2 stands for the
square root collideParticles then takes of the corrected state. -/
def swBallBallPair (a b : CircleMAC) (DT d1 d2 : ℚ) : CircleMAC × CircleMAC :=
  let myNextX := a.x + a.dx * DT
  let myNextY := a.y + a.dy * DT
  let otherNextX := b.x + b.dx * DT
  let otherNextY := b.y + b.dy * DT
  let dx := otherNextX - myNextX
  let dy := otherNextY - myNextY
  let dsquared := dx * dx + dy * dy
  let minDist := a.size + b.size
  if dsquared < minDist * minDist then
    let ab :=
      if d1 > 1 / 100000000 then
        let overlap := minDist - d1
        let nx := dx / d1
        let ny := dy / d1
        ({ a with x := a.x - nx * overlap * (1 / 2),
                  y := a.y - ny * overlap * (1 / 2) },
         { b with x := b.x + nx * overlap * (1 / 2),
                  y := b.y + ny * overlap * (1 / 2) })
      else (a, b)
    collideParticles ab.1 ab.2 DT BALL_BALL_FRICTION d2
  else (a, b)

/-- Embeds checkForIntersection (BouncingCirclesPWA2025MAC/main.js
lines 135-152). -/
def checkForIntersection (c : CircleMAC) (circleList : List CircleMAC) : Bool :=
  circleList.any fun o =>
    decide ((o.x - c.x) ^ 2 + (o.y - c.y) ^ 2 < (c.size + o.size) ^ 2)

/-- Embeds the spawn loop of BouncingCirclesPWA2025MAC/main.js lines
126-133: while fewer than num circles are placed and tries remain,
construct a random candidate and push it only if it does not intersect
the list.  The candidate list holds the successive random circles, one
per try (the source budget is 10000 tries). -/
def spawnInitLoop (num : ℕ) : List CircleMAC → List CircleMAC → List CircleMAC
  | [], acc => acc
  | c :: rest, acc =>
    if acc.length < num then
      if checkForIntersection c acc then spawnInitLoop num rest acc
      else spawnInitLoop num rest (acc ++ [c])
    else acc

/-- Embeds the dt clamp of redraw (BouncingCirclesPWA2025MAC/main.js
lines 158-164): if DT exceeds 0.1 s it is set to 0.1 s. -/
def redrawDtClamp (dt : ℚ) : ℚ := if dt > 1 / 10 then 1 / 10 else dt

/-- Embeds the dt clamp of render (src/main.js lines 296-302): if dt
exceeds 0.05 s it is set to 0.05 s. -/
def renderDtClamp (dt : ℚ) : ℚ := if dt > 1 / 20 then 1 / 20 else dt

/-- Non-overlap of two circles of variant B, the negation of the strict
intersection test used by checkForIntersection. -/
def nonOverlapMAC (c o : CircleMAC) : Prop :=
  (c.size + o.size) ^ 2 ≤ (o.x - c.x) ^ 2 + (o.y - c.y) ^ 2

instance (c o : CircleMAC) : Decidable (nonOverlapMAC c o) := by
  unfold nonOverlapMAC; infer_instance

/-! ## Variant C: the bucketed engine (unnamed/part_005) -/

structure Circle5 where
  x : ℚ
  y : ℚ
  radius : ℚ
  vx : ℚ
  vy : ℚ
deriving DecidableEq

/-- Embeds resolvePair (part_005 lines 222-271).  The argument droot
stands for Math.sqrt(dist2); the source then clamps it below by 1e-8
before normalising. -/
def resolvePair (a b : Circle5) (droot : ℚ) : Circle5 × Circle5 :=
  let dx := b.x - a.x
  let dy := b.y - a.y
  let r := a.radius + b.radius
  let dist2 := dx * dx + dy * dy
  if dist2 ≥ r * r then (a, b)
  else
    let dist := if droot < 1 / 100000000 then 1 / 100000000 else droot
    let nx := dx / dist
    let ny := dy / dist
    let restitution : ℚ := 98 / 100
    let slop : ℚ := 5 / 10000
    let percent : ℚ := 8 / 10
    let penetration := r - dist
    let correctionMag := max (penetration - slop) 0 * percent
    let massA := a.radius * a.radius
    let massB := b.radius * b.radius
    let invMassA := 1 / massA
    let invMassB := 1 / massB
    let invMassSum := invMassA + invMassB
    let a1 := { a with x := a.x - correctionMag * nx * (invMassA / invMassSum),
                       y := a.y - correctionMag * ny * (invMassA / invMassSum) }
    let b1 := { b with x := b.x + correctionMag * nx * (invMassB / invMassSum),
                       y := b.y + correctionMag * ny * (invMassB / invMassSum) }
    let rvx := b1.vx - a1.vx
    let rvy := b1.vy - a1.vy
    let velAlongNormal := rvx * nx + rvy * ny
    if velAlongNormal > 0 then (a1, b1)
    else
      let jImpulse := -(1 + restitution) * velAlongNormal / invMassSum
      ({ a1 with vx := a1.vx - jImpulse * nx * invMassA,
                 vy := a1.vy - jImpulse * ny * invMassA },
       { b1 with vx := b1.vx + jImpulse * nx * invMassB,
                 vy := b1.vy + jImpulse * ny * invMassB })

/-- Definedness-tracking variant of resolvePair: identical structure,
but every division the source performs is checked, so the result is
none exactly when some division in the source would produce a
non-finite number. -/
def resolvePairF (a b : Circle5) (droot : ℚ) : Option (Circle5 × Circle5) :=
  let dx := b.x - a.x
  let dy := b.y - a.y
  let r := a.radius + b.radius
  let dist2 := dx * dx + dy * dy
  if dist2 ≥ r * r then some (a, b)
  else
    let dist := if droot < 1 / 100000000 then 1 / 100000000 else droot
    do
    let nx ← divF dx dist
    let ny ← divF dy dist
    let restitution : ℚ := 98 / 100
    let slop : ℚ := 5 / 10000
    let percent : ℚ := 8 / 10
    let penetration := r - dist
    let correctionMag := max (penetration - slop) 0 * percent
    let massA := a.radius * a.radius
    let massB := b.radius * b.radius
    let invMassA ← divF 1 massA
    let invMassB ← divF 1 massB
    let invMassSum := invMassA + invMassB
    let shareA ← divF invMassA invMassSum
    let shareB ← divF invMassB invMassSum
    let a1 := { a with x := a.x - correctionMag * nx * shareA,
                       y := a.y - correctionMag * ny * shareA }
    let b1 := { b with x := b.x + correctionMag * nx * shareB,
                       y := b.y + correctionMag * ny * shareB }
    let rvx := b1.vx - a1.vx
    let rvy := b1.vy - a1.vy
    let velAlongNormal := rvx * nx + rvy * ny
    if velAlongNormal > 0 then some (a1, b1)
    else do
      let jImpulse ← divF (-(1 + restitution) * velAlongNormal) invMassSum
      some ({ a1 with vx := a1.vx - jImpulse * nx * invMassA,
                      vy := a1.vy - jImpulse * ny * invMassA },
            { b1 with vx := b1.vx + jImpulse * nx * invMassB,
                      vy := b1.vy + jImpulse * ny * invMassB })

/-- Grid cell size of resolveCircleCollisionsBuckets (part_005 line 276). -/
def bucketSize : ℚ := 28 / 100

/-- Embeds the cell computation of part_005 lines 285-286:
Math.floor((coordinate + 1) / bucketSize) on each axis. -/
def cellOf (c : Circle5) : ℤ × ℤ :=
  (⌊(c.x + 1) / bucketSize⌋, ⌊(c.y + 1) / bucketSize⌋)

/-- The bucket map, as an insertion-ordered association list keyed by
the integer cell pair (the source keys a Map by the string ix,iy, which
is in bijection with the pair). -/
def bucketInsert : List ((ℤ × ℤ) × List ℕ) → ℤ × ℤ → ℕ →
    List ((ℤ × ℤ) × List ℕ)
  | [], k, i => [(k, [i])]
  | (k1, l) :: rest, k, i =>
    if k1 = k then (k1, l ++ [i]) :: rest else (k1, l) :: bucketInsert rest k i

/-- Lookup in the bucket map (first entry with the key, as Map.get);
a missing key yields the empty bucket (the source skips missing
neighbour buckets with continue). -/
def bucketFind : List ((ℤ × ℤ) × List ℕ) → ℤ × ℤ → List ℕ
  | [], _ => []
  | e :: rest, k => if e.1 = k then e.2 else bucketFind rest k

/-- The bucket-building loop of part_005 lines 281-291, iterating the
circle list with ascending indices. -/
def buildGo (n : ℕ) : List Circle5 → List ((ℤ × ℤ) × List ℕ) →
    List ((ℤ × ℤ) × List ℕ)
  | [], bs => bs
  | c :: rest, bs => buildGo (n + 1) rest (bucketInsert bs (cellOf c) n)

def buildBuckets (cs : List Circle5) : List ((ℤ × ℤ) × List ℕ) :=
  buildGo 0 cs []

/-- The nine neighbour offsets of part_005 lines 300-302, in source
iteration order (ox outer from -1 to 1, oy inner from -1 to 1). -/
def offsets : List (ℤ × ℤ) :=
  [(-1, -1), (-1, 0), (-1, 1), (0, -1), (0, 0), (0, 1), (1, -1), (1, 0), (1, 1)]

/-- The normalised unordered pair key of part_005 line 313. -/
def normPair (i j : ℕ) : ℕ × ℕ := if i < j then (i, j) else (j, i)

/-- The candidate pair stream of the bucket pass (part_005 lines
297-320) before seen-pair deduplication: for every bucket entry, every
neighbour offset, every index in the bucket and every index in the
neighbour bucket, emit the normalised pair unless the indices are equal. -/
def rawBucketPairs (bs : List ((ℤ × ℤ) × List ℕ)) : List (ℕ × ℕ) :=
  bs.flatMap fun e =>
    offsets.flatMap fun off =>
      e.2.flatMap fun i =>
        (bucketFind bs (e.1.1 + off.1, e.1.2 + off.2)).filterMap fun j =>
          if i = j then none else some (normPair i j)

/-- The seenPairs set logic of part_005 lines 313-315: keep the first
occurrence of each pair, skip later ones. -/
def dedupPairs (seen : List (ℕ × ℕ)) : List (ℕ × ℕ) → List (ℕ × ℕ)
  | [] => []
  | p :: rest =>
    if p ∈ seen then dedupPairs seen rest else p :: dedupPairs (p :: seen) rest

/-- The sequence of index pairs on which one pass of
resolveCircleCollisionsBuckets invokes resolvePair, in invocation
order.  The buckets are built once from the initial positions and the
seenPairs set depends only on indices, so this sequence is determined
by the input list even though resolvePair mutates circles during the
pass. -/
def bucketPassPairs (cs : List Circle5) : List (ℕ × ℕ) :=
  dedupPairs [] (rawBucketPairs (buildBuckets cs))

/-- One resolvePair invocation of the bucket pass on the circle list;
sq supplies the square root of the squared center distance the source
computes inside resolvePair. -/
def applyPair (sq : ℚ → ℚ) (cs : List Circle5) (p : ℕ × ℕ) : List Circle5 :=
  match cs.get? p.1, cs.get? p.2 with
  | some a, some b =>
    let r := resolvePair a b
      (sq ((b.x - a.x) * (b.x - a.x) + (b.y - a.y) * (b.y - a.y)))
    (cs.set p.1 r.1).set p.2 r.2
  | _, _ => cs

/-- Embeds resolveCircleCollisionsBuckets (part_005 lines 273-323):
build buckets from the current positions, then run resolvePair over
the deduplicated neighbour pairs in invocation order. -/
def resolveCircleCollisionsBuckets (sq : ℚ → ℚ) (cs : List Circle5) : List Circle5 :=
  (bucketPassPairs cs).foldl (applyPair sq) cs

/-- The strict overlap test of resolvePair (part_005 line 228),
as a Boolean on two circles. -/
def overlapB (a b : Circle5) : Bool :=
  decide ((b.x - a.x) * (b.x - a.x) + (b.y - a.y) * (b.y - a.y) <
    (a.radius + b.radius) * (a.radius + b.radius))

/-- Overlap of the pair of circles at the given indices. -/
def pairOverlapB (cs : List Circle5) (p : ℕ × ℕ) : Bool :=
  match cs.get? p.1, cs.get? p.2 with
  | some a, some b => overlapB a b
  | _, _ => false

/-- The specification-side all-pairs iteration with the i < j
convention, from the spec of the broad phase. -/
def allPairs (n : ℕ) : List (ℕ × ℕ) :=
  (List.range n).flatMap fun i =>
    ((List.range n).filter fun j => decide (i < j)).map fun j => (i, j)


/-! ## Concrete instances used by counterexamples and witnesses -/

/-- A circle about to overshoot the right wall of variant B. -/
def cEscape : CircleMAC :=
  { xlow := -10, xhigh := 10, ylow := -10, yhigh := 10,
    size := 1, x := 19/2, y := 0, dx := 1, dy := 0 }

/-- Left circle of the head-on scenario of the spec. -/
def c3A : CircleMAC :=
  { xlow := -10, xhigh := 10, ylow := -10, yhigh := 10,
    size := 1, x := -21/20, y := 0, dx := 2, dy := 0 }

/-- Right circle of the head-on scenario of the spec. -/
def c3B : CircleMAC :=
  { xlow := -10, xhigh := 10, ylow := -10, yhigh := 10,
    size := 1, x := 21/20, y := 0, dx := -2, dy := 0 }

/-- A circle moving left, away from its overlap partner. -/
def c4A : CircleMAC :=
  { xlow := -10, xhigh := 10, ylow := -10, yhigh := 10,
    size := 1, x := 0, y := 0, dx := -1, dy := 0 }

/-- A circle moving right, away from its overlap partner. -/
def c4B : CircleMAC :=
  { xlow := -10, xhigh := 10, ylow := -10, yhigh := 10,
    size := 1, x := 1, y := 0, dx := 1, dy := 0 }

/-- A variant C circle at the origin. -/
def c5A : Circle5 := { x := 0, y := 0, radius := 1/10, vx := 0, vy := 0 }

/-- A variant C circle a billionth of a unit away from the origin. -/
def c5B : Circle5 := { x := 1/1000000000, y := 0, radius := 1/10, vx := 0, vy := 0 }

/-- A stationary light circle for the positional-correction test. -/
def c6A : CircleMAC :=
  { xlow := -10, xhigh := 10, ylow := -10, yhigh := 10,
    size := 1, x := 0, y := 0, dx := 0, dy := 0 }

/-- A stationary heavy circle overlapping c6A. -/
def c6B : CircleMAC :=
  { xlow := -10, xhigh := 10, ylow := -10, yhigh := 10,
    size := 2, x := 5/2, y := 0, dx := 0, dy := 0 }

/-- A coincident pair member for the DT = 0 test. -/
def c10A : CircleMAC :=
  { xlow := -10, xhigh := 10, ylow := -10, yhigh := 10,
    size := 1, x := 0, y := 0, dx := 3, dy := 0 }

/-- The other coincident pair member for the DT = 0 test. -/
def c10B : CircleMAC :=
  { xlow := -10, xhigh := 10, ylow := -10, yhigh := 10,
    size := 1, x := 0, y := 0, dx := -3, dy := 0 }

/-! ## Claim C1: momentum conservation of one pair resolution -/

/-- Applying an equal and opposite impulse q weighted by the inverse
masses leaves the mass-weighted velocity sum unchanged. -/
theorem momentum_update_cancel (ma mb va vb q : ℚ) (hma : ma ≠ 0) (hmb : mb ≠ 0) :
    ma * (va - q * (1/ma)) + mb * (vb + q * (1/mb)) = ma * va + mb * vb := by
  field_simp
  ring

set_option maxHeartbeats 2000000 in
/-- Claim C1: for an isolated pair, one ball-ball collision resolution
preserves total momentum (mass times velocity, mass = r squared)
exactly up to the restitution or friction factor applied uniformly to
both circles.  First conjunct: the impulse resolver of part_002
conserves momentum exactly, on every branch, for every value of the
distance argument.  Second conjunct: the center-of-mass resolver
collideParticles multiplies the total momentum exactly by its
collisionFriction factor whenever the degenerate-distance guard
passes. -/
theorem c1_momentum_conservation :
    (∀ (a b : Circle2) (d : ℚ), a.mass ≠ 0 → b.mass ≠ 0 →
      a.mass * (resolveCircleCollision a b d).1.vx +
        b.mass * (resolveCircleCollision a b d).2.vx =
        a.mass * a.vx + b.mass * b.vx ∧
      a.mass * (resolveCircleCollision a b d).1.vy +
        b.mass * (resolveCircleCollision a b d).2.vy =
        a.mass * a.vy + b.mass * b.vy) ∧
    (∀ (p1 p2 : CircleMAC) (DT f d : ℚ), 0 < p1.size → 0 < p2.size →
      DT ≠ 0 → ¬ d < 1 / 100000000 →
      p1.size * p1.size * (collideParticles p1 p2 DT f d).1.dx +
        p2.size * p2.size * (collideParticles p1 p2 DT f d).2.dx =
        f * (p1.size * p1.size * p1.dx + p2.size * p2.size * p2.dx) ∧
      p1.size * p1.size * (collideParticles p1 p2 DT f d).1.dy +
        p2.size * p2.size * (collideParticles p1 p2 DT f d).2.dy =
        f * (p1.size * p1.size * p1.dy + p2.size * p2.size * p2.dy)) := by
  constructor
  · intro a b d ha hb
    unfold resolveCircleCollision
    dsimp only
    split_ifs with h1 h2
    · exact ⟨rfl, rfl⟩
    · exact ⟨rfl, rfl⟩
    · exact ⟨momentum_update_cancel _ _ _ _ _ ha hb,
        momentum_update_cancel _ _ _ _ _ ha hb⟩
  · intro p1 p2 DT f d h1 h2 hDT hd
    have hM : p1.size * p1.size + p2.size * p2.size ≠ 0 := by positivity
    have hd0 : d ≠ 0 := by
      intro h
      exact hd (by rw [h]; norm_num)
    unfold collideParticles
    rw [if_neg hd]
    dsimp only
    constructor <;> · field_simp; ring

/-- Witness for C1 at concrete inputs: an impulse-resolved pair with
masses 1 and 4, and the center-of-mass resolver on the head-on
scenario circles with friction 9/10. -/
theorem c1_momentum_conservation_witness :
    ((1:ℚ) * (resolveCircleCollision
        { x := 0, y := 0, r := 1, vx := 1, vy := 0, mass := 1 }
        { x := 3/2, y := 0, r := 2, vx := 0, vy := 0, mass := 4 } (3/2)).1.vx +
      (4:ℚ) * (resolveCircleCollision
        { x := 0, y := 0, r := 1, vx := 1, vy := 0, mass := 1 }
        { x := 3/2, y := 0, r := 2, vx := 0, vy := 0, mass := 4 } (3/2)).2.vx =
      (1:ℚ) * 1 + 4 * 0 ∧
      (1:ℚ) * (resolveCircleCollision
        { x := 0, y := 0, r := 1, vx := 1, vy := 0, mass := 1 }
        { x := 3/2, y := 0, r := 2, vx := 0, vy := 0, mass := 4 } (3/2)).1.vy +
      (4:ℚ) * (resolveCircleCollision
        { x := 0, y := 0, r := 1, vx := 1, vy := 0, mass := 1 }
        { x := 3/2, y := 0, r := 2, vx := 0, vy := 0, mass := 4 } (3/2)).2.vy =
      (1:ℚ) * 0 + 4 * 0) ∧
    (c3A.size * c3A.size * (collideParticles c3A c3B (1/10) (9/10) (17/10)).1.dx +
      c3B.size * c3B.size * (collideParticles c3A c3B (1/10) (9/10) (17/10)).2.dx =
      (9:ℚ)/10 * (c3A.size * c3A.size * c3A.dx + c3B.size * c3B.size * c3B.dx) ∧
      c3A.size * c3A.size * (collideParticles c3A c3B (1/10) (9/10) (17/10)).1.dy +
      c3B.size * c3B.size * (collideParticles c3A c3B (1/10) (9/10) (17/10)).2.dy =
      (9:ℚ)/10 * (c3A.size * c3A.size * c3A.dy + c3B.size * c3B.size * c3B.dy)) := by
  constructor
  · exact c1_momentum_conservation.1
      { x := 0, y := 0, r := 1, vx := 1, vy := 0, mass := 1 }
      { x := 3/2, y := 0, r := 2, vx := 0, vy := 0, mass := 4 } (3/2)
      (by norm_num) (by norm_num)
  · exact c1_momentum_conservation.2 c3A c3B (1/10) (9/10) (17/10)
      (by norm_num [c3A]) (by norm_num [c3B]) (by norm_num) (by norm_num)

/-! ## Claim C2: wall containment after the per-frame step -/

/-- Claim C2, counterexample: in variant B the wall resolver
Circle.ballWall only reflects the velocity and never clamps the
position, so a circle whose integrated next position exceeds the
bound ends the frame outside the containment band.  The concrete
circle cEscape would cross the right wall; after wall resolution,
integration and the final wall resolution of the frame its position
exceeds xhigh - size. -/
theorem c2_wall_containment_counterexample :
    cEscape.x + cEscape.dx * (1/10) + cEscape.size > cEscape.xhigh ∧
    (ballWall (1/10) (positions (1/10) (ballWall (1/10) cEscape))).x >
      cEscape.xhigh - cEscape.size := by
  norm_num [cEscape, ballWall, positions, BALL_WALL_FRICTION, jsAbs]

/-- Claim C2, amended: the position-clamping wall resolver of part_002
does establish the containment band exactly: for every circle whose
diameter fits the canvas, immediately after resolveWallCollision the
position satisfies r less-or-equal position less-or-equal bound minus
r on both axes; the predictive resolver Circle.ballWall of variant B
gives no such guarantee since it never writes the position. -/
theorem c2_wall_containment_amended (w h : ℚ) (c : Circle2)
    (hw : 2 * c.r ≤ w) (hh : 2 * c.r ≤ h) :
    (resolveWallCollision w h c).r ≤ (resolveWallCollision w h c).x ∧
    (resolveWallCollision w h c).x ≤ w - (resolveWallCollision w h c).r ∧
    (resolveWallCollision w h c).r ≤ (resolveWallCollision w h c).y ∧
    (resolveWallCollision w h c).y ≤ h - (resolveWallCollision w h c).r := by
  unfold resolveWallCollision
  dsimp only
  split_ifs <;>
    refine ⟨?_, ?_, ?_, ?_⟩ <;> dsimp only <;> linarith

/-- Witness for the amended C2 at a concrete circle that crossed the
left and top walls. -/
theorem c2_wall_containment_amended_witness :
    (resolveWallCollision 100 100
      { x := -3, y := 104, r := 5, vx := -2, vy := 3, mass := 25 }).r ≤
      (resolveWallCollision 100 100
      { x := -3, y := 104, r := 5, vx := -2, vy := 3, mass := 25 }).x ∧
    (resolveWallCollision 100 100
      { x := -3, y := 104, r := 5, vx := -2, vy := 3, mass := 25 }).x ≤ 100 -
      (resolveWallCollision 100 100
      { x := -3, y := 104, r := 5, vx := -2, vy := 3, mass := 25 }).r ∧
    (resolveWallCollision 100 100
      { x := -3, y := 104, r := 5, vx := -2, vy := 3, mass := 25 }).r ≤
      (resolveWallCollision 100 100
      { x := -3, y := 104, r := 5, vx := -2, vy := 3, mass := 25 }).y ∧
    (resolveWallCollision 100 100
      { x := -3, y := 104, r := 5, vx := -2, vy := 3, mass := 25 }).y ≤ 100 -
      (resolveWallCollision 100 100
      { x := -3, y := 104, r := 5, vx := -2, vy := 3, mass := 25 }).r :=
  c2_wall_containment_amended 100 100
    { x := -3, y := 104, r := 5, vx := -2, vy := 3, mass := 25 }
    (by norm_num) (by norm_num)

/-! ## Claim C3: the head-on equal-mass scenario -/

/-- Claim C3: two unit circles at (-1.05, 0) and (1.05, 0) with
velocities (2, 0) and (-2, 0), restitution 1, dt = 0.1: the predicted
positions overlap (so the predicted-position detection of ballBall
fires), 17/10 is the exact distance of the predicted centers, and one
collideParticles resolution with friction 1 reverses both velocities
exactly: A ends with (-2, 0) and B with (2, 0). -/
theorem c3_head_on_swap :
    ((c3B.x + c3B.dx * (1/10)) - (c3A.x + c3A.dx * (1/10)))^2 +
      ((c3B.y + c3B.dy * (1/10)) - (c3A.y + c3A.dy * (1/10)))^2 <
      (c3A.size + c3B.size)^2 ∧
    (0:ℚ) ≤ 17/10 ∧
    ((17:ℚ)/10)^2 = ((c3A.x + c3A.dx * (1/10)) - (c3B.x + c3B.dx * (1/10)))^2 +
      ((c3A.y + c3A.dy * (1/10)) - (c3B.y + c3B.dy * (1/10)))^2 ∧
    (collideParticles c3A c3B (1/10) 1 (17/10)).1.dx = -2 ∧
    (collideParticles c3A c3B (1/10) 1 (17/10)).1.dy = 0 ∧
    (collideParticles c3A c3B (1/10) 1 (17/10)).2.dx = 2 ∧
    (collideParticles c3A c3B (1/10) 1 (17/10)).2.dy = 0 := by
  norm_num [c3A, c3B, collideParticles]

/-! ## Claim C4: no-op on separating pairs -/

/-- Claim C4, counterexample: collideParticles has no separating-pair
guard.  The pair c4A, c4B is separating (the relative velocity along
the collision normal of the predicted positions is positive, first
conjunct; 6/5 is the exact predicted distance, third conjunct), yet
the resolver changes the velocity of the first circle. -/
theorem c4_separating_counterexample :
    ((c4B.x + c4B.dx * (1/10)) - (c4A.x + c4A.dx * (1/10))) * (c4B.dx - c4A.dx) +
      ((c4B.y + c4B.dy * (1/10)) - (c4A.y + c4A.dy * (1/10))) * (c4B.dy - c4A.dy) > 0 ∧
    (0:ℚ) ≤ 6/5 ∧
    ((6:ℚ)/5)^2 = ((c4A.x + c4A.dx * (1/10)) - (c4B.x + c4B.dx * (1/10)))^2 +
      ((c4A.y + c4A.dy * (1/10)) - (c4B.y + c4B.dy * (1/10)))^2 ∧
    (collideParticles c4A c4B (1/10) (9/10) (6/5)).1.dx ≠ c4A.dx := by
  norm_num [c4A, c4B, collideParticles]

/-- Claim C4, amended: the impulse resolver of part_002 does satisfy
the claim: whenever the relative velocity along the separation vector
is positive (the pair is separating), resolveCircleCollision leaves
all four velocity components unchanged, for every distance argument
that is the true nonnegative root of the squared separation. -/
theorem c4_separating_noop_amended (a b : Circle2) (d : ℚ) (hd0 : 0 ≤ d)
    (_hd2 : d ^ 2 = (b.x - a.x) ^ 2 + (b.y - a.y) ^ 2)
    (hsep : (b.x - a.x) * (b.vx - a.vx) + (b.y - a.y) * (b.vy - a.vy) > 0) :
    (resolveCircleCollision a b d).1.vx = a.vx ∧
    (resolveCircleCollision a b d).1.vy = a.vy ∧
    (resolveCircleCollision a b d).2.vx = b.vx ∧
    (resolveCircleCollision a b d).2.vy = b.vy := by
  unfold resolveCircleCollision
  dsimp only
  split_ifs with h1 h2
  · exact ⟨rfl, rfl, rfl, rfl⟩
  · exact ⟨rfl, rfl, rfl, rfl⟩
  · exfalso
    apply h2
    push_neg at h1
    have hdpos : 0 < d := hd0.lt_of_ne (Ne.symm h1.1)
    have heq : (b.vx - a.vx) * ((b.x - a.x) / d) + (b.vy - a.vy) * ((b.y - a.y) / d) =
        ((b.x - a.x) * (b.vx - a.vx) + (b.y - a.y) * (b.vy - a.vy)) / d := by
      ring
    rw [heq]
    exact div_pos hsep hdpos

/-- Witness for the amended C4: a separating overlapping pair of
part_002 circles keeps its velocities. -/
theorem c4_separating_noop_amended_witness :
    (resolveCircleCollision
      { x := 0, y := 0, r := 1, vx := -1, vy := 0, mass := 1 }
      { x := 1, y := 0, r := 1, vx := 1, vy := 0, mass := 1 } 1).1.vx = -1 ∧
    (resolveCircleCollision
      { x := 0, y := 0, r := 1, vx := -1, vy := 0, mass := 1 }
      { x := 1, y := 0, r := 1, vx := 1, vy := 0, mass := 1 } 1).1.vy = 0 ∧
    (resolveCircleCollision
      { x := 0, y := 0, r := 1, vx := -1, vy := 0, mass := 1 }
      { x := 1, y := 0, r := 1, vx := 1, vy := 0, mass := 1 } 1).2.vx = 1 ∧
    (resolveCircleCollision
      { x := 0, y := 0, r := 1, vx := -1, vy := 0, mass := 1 }
      { x := 1, y := 0, r := 1, vx := 1, vy := 0, mass := 1 } 1).2.vy = 0 :=
  c4_separating_noop_amended
    { x := 0, y := 0, r := 1, vx := -1, vy := 0, mass := 1 }
    { x := 1, y := 0, r := 1, vx := 1, vy := 0, mass := 1 } 1
    (by norm_num) (by norm_num) (by norm_num)


/-! ## Claim C5: degenerate-distance handling -/

/-- Claim C5, counterexample: resolvePair of part_005 does not skip a
near-zero-separation pair.  The circles c5A and c5B are separated by
one billionth of a unit (the exact root is certified by the first two
conjuncts and is below the 1e-8 threshold, third conjunct), yet the
resolver moves the first circle instead of skipping the pair: it
clamps the distance to 1e-8 and proceeds with the computation. -/
theorem c5_degenerate_counterexample :
    (0:ℚ) ≤ 1/1000000000 ∧
    ((1:ℚ)/1000000000)^2 = (c5B.x - c5A.x)^2 + (c5B.y - c5A.y)^2 ∧
    ((1:ℚ)/1000000000) < 1/100000000 ∧
    (resolvePair c5A c5B (1/1000000000)).1.x ≠ c5A.x := by
  norm_num [c5A, c5B, resolvePair]

/-- For circles of positive radius every division in resolvePair has a
nonzero denominator (the clamped distance is at least 1e-8 even for
coincident centers, the masses are positive, and so is the inverse
mass sum), so the checked evaluation succeeds and agrees with the
total one on every path, including the clamp-and-proceed path. -/
theorem resolvePairF_eq (a b : Circle5) (d : ℚ)
    (ha : 0 < a.radius) (hb : 0 < b.radius) :
    resolvePairF a b d = some (resolvePair a b d) := by
  have hmA : a.radius * a.radius ≠ 0 := by positivity
  have hmB : b.radius * b.radius ≠ 0 := by positivity
  have hsum : a.radius⁻¹ * a.radius⁻¹ + b.radius⁻¹ * b.radius⁻¹ ≠ 0 := by positivity
  unfold resolvePairF resolvePair
  by_cases h1 : (b.x - a.x) * (b.x - a.x) + (b.y - a.y) * (b.y - a.y) ≥
      (a.radius + b.radius) * (a.radius + b.radius)
  · rw [if_pos h1, if_pos h1]
  · rw [if_neg h1, if_neg h1]
    by_cases hd : d < 1 / 100000000
    · norm_num [divF, if_pos hd, hmA, hmB, hsum]
      split_ifs <;> rfl
    · have hd0 : d ≠ 0 := by
        intro h
        rw [h] at hd
        exact hd (by norm_num)
      norm_num [divF, if_neg hd, hd0, hmA, hmB, hsum]
      split_ifs <;> rfl

/-- On an exactly coincident pair the total-model resolvePair is a
no-op: the distance argument is forced to zero, the clamp raises it
to 1e-8, the normal components become zero, and both the positional
correction and the impulse vanish. -/
theorem resolvePair_coincident (a b : Circle5) (d : ℚ) (hx : a.x = b.x) (hy : a.y = b.y)
    (hd0 : 0 ≤ d) (hd2 : d ^ 2 = (b.x - a.x) ^ 2 + (b.y - a.y) ^ 2) :
    resolvePair a b d = (a, b) := by
  have hbx : b.x - a.x = 0 := by rw [← hx, sub_self]
  have hby : b.y - a.y = 0 := by rw [← hy, sub_self]
  have hd : d = 0 := by
    rw [hbx, hby] at hd2
    norm_num at hd2
    exact hd2
  subst hd
  unfold resolvePair
  rw [hbx, hby]
  norm_num

/-- Claim C5, amended: collideParticles does skip every pair whose
computed center distance is below 1e-8, returning both circles
unchanged.  resolvePair never skips by an early return: on an exactly
coincident pair of positive-radius circles it is a no-op with a
defined, finite result, and on every path for positive radii -
including the clamp-and-proceed path taken at a near-zero nonzero
separation - every division the source performs has a nonzero
denominator, so no division by zero occurs and all positions and
velocities stay finite (the checked-division evaluation succeeds and
agrees with the total one).  The positive-radius hypothesis, which
the constructor guarantees (radius drawn from [0.03, 0.12]), is
necessary: with a zero radius the source would compute 1 / 0. -/
theorem c5_degenerate_guard_amended :
    (∀ (p1 p2 : CircleMAC) (DT f d : ℚ), d < 1 / 100000000 →
      collideParticles p1 p2 DT f d = (p1, p2)) ∧
    (∀ (a b : Circle5) (d : ℚ), 0 < a.radius → 0 < b.radius →
      a.x = b.x → a.y = b.y → 0 ≤ d →
      d ^ 2 = (b.x - a.x) ^ 2 + (b.y - a.y) ^ 2 →
      resolvePairF a b d = some (a, b)) ∧
    (∀ (a b : Circle5) (d : ℚ), 0 < a.radius → 0 < b.radius →
      resolvePairF a b d = some (resolvePair a b d)) := by
  refine ⟨?_, ?_, ?_⟩
  · intro p1 p2 DT f d hd
    unfold collideParticles
    rw [if_pos hd]
  · intro a b d ha hb hx hy hd0 hd2
    rw [resolvePairF_eq a b d ha hb, resolvePair_coincident a b d hx hy hd0 hd2]
  · intro a b d ha hb
    exact resolvePairF_eq a b d ha hb

/-- Witness for the amended C5: a sub-threshold pair skipped by
collideParticles, a coincident positive-radius part_005 pair on which
the checked evaluation is a defined no-op, and the near-zero pair of
the counterexample, on which the checked evaluation of the
clamp-and-proceed path also succeeds and agrees with the total
model. -/
theorem c5_degenerate_guard_amended_witness :
    collideParticles c10A c10B (1/10) (9/10) 0 = (c10A, c10B) ∧
    resolvePairF { x := 2, y := 3, radius := 1/10, vx := 5, vy := -1 }
      { x := 2, y := 3, radius := 1/5, vx := -4, vy := 2 } 0 =
      some ({ x := 2, y := 3, radius := 1/10, vx := 5, vy := -1 },
            { x := 2, y := 3, radius := 1/5, vx := -4, vy := 2 }) ∧
    resolvePairF c5A c5B (1/1000000000) =
      some (resolvePair c5A c5B (1/1000000000)) := by
  refine ⟨?_, ?_, ?_⟩
  · exact c5_degenerate_guard_amended.1 c10A c10B (1/10) (9/10) 0 (by norm_num)
  · exact c5_degenerate_guard_amended.2.1
      { x := 2, y := 3, radius := 1/10, vx := 5, vy := -1 }
      { x := 2, y := 3, radius := 1/5, vx := -4, vy := 2 } 0
      (by norm_num) (by norm_num) rfl rfl le_rfl (by norm_num)
  · exact c5_degenerate_guard_amended.2.2 c5A c5B (1/1000000000)
      (by norm_num [c5A]) (by norm_num [c5B])

/-! ## Claim C6: mass-weighted positional correction -/

/-- Claim C6, counterexample: the service-worker ballBall splits the
positional push-apart half and half regardless of mass.  For the pair
c6A (radius 1, mass 1) and c6B (radius 2, mass 4) at center distance
5/2 (certified by the first two conjuncts; both circles at rest so
predicted positions equal current ones), the resolver moves circle A
to x = -1/4 and circle B to x = 11/4 (each by a quarter unit, the
half-overlap), whereas the claimed mass-proportional split would move
circle A to x = -2/5; the final conjunct states the discrepancy.  The
fourth conjunct certifies the root taken inside the nested
collideParticles call on the corrected positions. -/
theorem c6_mass_split_counterexample :
    ((5:ℚ)/2)^2 = ((c6B.x + c6B.dx * (1/10)) - (c6A.x + c6A.dx * (1/10)))^2 +
      ((c6B.y + c6B.dy * (1/10)) - (c6A.y + c6A.dy * (1/10)))^2 ∧
    (0:ℚ) ≤ 5/2 ∧
    (swBallBallPair c6A c6B (1/10) (5/2) 3).1.x = -(1/4) ∧
    (swBallBallPair c6A c6B (1/10) (5/2) 3).2.x = 11/4 ∧
    (3:ℚ)^2 = ((11/4 + c6B.dx * (1/10)) - (-(1/4) + c6A.dx * (1/10)))^2 +
      ((c6B.y + c6B.dy * (1/10)) - (c6A.y + c6A.dy * (1/10)))^2 ∧
    -(1/4) ≠ c6A.x - ((c6B.x - c6A.x) / (5/2)) * ((c6A.size + c6B.size) - 5/2) *
      ((c6B.size * c6B.size) / (c6A.size * c6A.size + c6B.size * c6B.size)) := by
  norm_num [c6A, c6B, swBallBallPair, collideParticles, BALL_BALL_FRICTION]

/-- Claim C6, amended: the impulse resolver of part_002 implements the
claimed split exactly: on an overlapping pair (distance argument
nonzero and below the radius sum) circle A is moved against the
normal by penetration times mass_B over the mass sum, and circle B
along the normal by penetration times mass_A over the mass sum; the
service-worker variant instead splits half and half, and part_005
additionally applies slop and a partial-correction percentage. -/
theorem c6_mass_split_amended (a b : Circle2) (d : ℚ)
    (hne : d ≠ 0) (hlt : d < a.r + b.r) :
    (resolveCircleCollision a b d).1.x =
      a.x - ((b.x - a.x) / d) * ((a.r + b.r) - d) * (b.mass / (a.mass + b.mass)) ∧
    (resolveCircleCollision a b d).1.y =
      a.y - ((b.y - a.y) / d) * ((a.r + b.r) - d) * (b.mass / (a.mass + b.mass)) ∧
    (resolveCircleCollision a b d).2.x =
      b.x + ((b.x - a.x) / d) * ((a.r + b.r) - d) * (a.mass / (a.mass + b.mass)) ∧
    (resolveCircleCollision a b d).2.y =
      b.y + ((b.y - a.y) / d) * ((a.r + b.r) - d) * (a.mass / (a.mass + b.mass)) := by
  unfold resolveCircleCollision
  dsimp only
  rw [if_neg (by push_neg; exact ⟨hne, hlt⟩)]
  split_ifs <;> exact ⟨rfl, rfl, rfl, rfl⟩

/-- Witness for the amended C6 on the unequal pair with masses 1 and 4
at distance 3/2 (the true root, since the circles differ only in x). -/
theorem c6_mass_split_amended_witness :
    (resolveCircleCollision
      { x := 0, y := 0, r := 1, vx := 0, vy := 0, mass := 1 }
      { x := 3/2, y := 0, r := 2, vx := 0, vy := 0, mass := 4 } (3/2)).1.x =
      0 - ((3/2 - 0) / (3/2)) * ((1 + 2) - 3/2) * (4 / (1 + 4)) ∧
    (resolveCircleCollision
      { x := 0, y := 0, r := 1, vx := 0, vy := 0, mass := 1 }
      { x := 3/2, y := 0, r := 2, vx := 0, vy := 0, mass := 4 } (3/2)).1.y =
      0 - ((0 - 0) / (3/2)) * ((1 + 2) - 3/2) * (4 / (1 + 4)) ∧
    (resolveCircleCollision
      { x := 0, y := 0, r := 1, vx := 0, vy := 0, mass := 1 }
      { x := 3/2, y := 0, r := 2, vx := 0, vy := 0, mass := 4 } (3/2)).2.x =
      3/2 + ((3/2 - 0) / (3/2)) * ((1 + 2) - 3/2) * (1 / (1 + 4)) ∧
    (resolveCircleCollision
      { x := 0, y := 0, r := 1, vx := 0, vy := 0, mass := 1 }
      { x := 3/2, y := 0, r := 2, vx := 0, vy := 0, mass := 4 } (3/2)).2.y =
      0 + ((0 - 0) / (3/2)) * ((1 + 2) - 3/2) * (1 / (1 + 4)) :=
  c6_mass_split_amended
    { x := 0, y := 0, r := 1, vx := 0, vy := 0, mass := 1 }
    { x := 3/2, y := 0, r := 2, vx := 0, vy := 0, mass := 4 } (3/2)
    (by norm_num) (by norm_num)

/-! ## Claim C7: spawning never fails and yields non-overlapping circles -/

/-- An existing circle that covers the spawn point used below. -/
def bigC7 : Circle2 := { x := 5, y := 5, r := 3, vx := 0, vy := 0, mass := 9 }

/-- The retry loop returns its input position unchanged when every
sample is that same overlapping position and the budget runs out. -/
theorem spawnRetryLoop_const (circles : List Circle2) (r : ℚ) (p : ℚ × ℚ) (n : ℕ)
    (h : overlapsAny circles p.1 p.2 r = true) :
    spawnRetryLoop circles r (List.replicate n p) p = p := by
  induction n with
  | zero => rfl
  | succ k ih =>
    rw [List.replicate_succ]
    unfold spawnRetryLoop
    rw [h]
    simpa using ih

/-- Claim C7, counterexample: spawnCircle of part_002 pushes the new
circle even when every one of its 60 retry samples overlaps an
existing circle, so after spawning an overlapping pair can remain.
With one existing circle of radius 3 at (5, 5) and all samples at
(5, 5), the new radius-2 circle is pushed at (5, 5), which the
source overlap test itself reports as overlapping. -/
theorem c7_spawn_overlap_counterexample :
    spawnCircle 100 100 [bigC7] 2 5 5 (List.replicate 60 (5, 5)) 0 0 =
      [bigC7, { x := 5, y := 5, r := 2, vx := 0, vy := 0, mass := 4 }] ∧
    overlapsAny [bigC7] 5 5 2 = true := by
  have h : overlapsAny [bigC7] 5 5 2 = true := by
    norm_num [overlapsAny, bigC7]
  refine ⟨?_, h⟩
  unfold spawnCircle
  rw [show clampQ 5 2 (100 - 2) = 5 from by norm_num [clampQ, min_def, max_def]]
  dsimp only
  rw [spawnRetryLoop_const [bigC7] 2 (5, 5) 60 h]
  norm_num

/-- Non-intersection hypotheses extracted from a false
checkForIntersection test. -/
theorem checkFI_false (c : CircleMAC) (acc : List CircleMAC)
    (h : checkForIntersection c acc = false) : ∀ o ∈ acc, nonOverlapMAC o c := by
  intro o ho
  unfold checkForIntersection at h
  rw [List.any_eq_false] at h
  have h1 := h o ho
  simp only [decide_eq_true_eq, not_lt] at h1
  unfold nonOverlapMAC
  calc (o.size + c.size) ^ 2 = (c.size + o.size) ^ 2 := by ring
    _ ≤ (o.x - c.x) ^ 2 + (o.y - c.y) ^ 2 := h1
    _ = (c.x - o.x) ^ 2 + (c.y - o.y) ^ 2 := by ring

/-- Invariant of the variant B spawn loop: the accumulator never
exceeds the requested count and stays pairwise non-overlapping. -/
theorem spawnInitLoop_invariant (num : ℕ) :
    ∀ (cands acc : List CircleMAC), acc.length ≤ num →
      acc.Pairwise nonOverlapMAC →
      (spawnInitLoop num cands acc).length ≤ num ∧
      (spawnInitLoop num cands acc).Pairwise nonOverlapMAC := by
  intro cands
  induction cands with
  | nil => intro acc h1 h2; exact ⟨h1, h2⟩
  | cons c rest ih =>
    intro acc h1 h2
    unfold spawnInitLoop
    split_ifs with hlen hchk
    · exact ih acc h1 h2
    · apply ih
      · rw [List.length_append]
        simpa using hlen
      · rw [List.pairwise_append]
        refine ⟨h2, List.pairwise_singleton _ _, ?_⟩
        intro o ho b hb
        rw [List.mem_singleton] at hb
        rw [hb]
        exact checkFI_false c acc (by simpa using hchk) o ho
    · exact ⟨h1, h2⟩

/-- Claim C7, amended: the variant B initialisation loop never fails,
places at most the requested number of circles (fewer when the try
budget runs out), and every pair it places is non-overlapping; the
part_002 spawnCircle, by contrast, always pushes its circle after 60
failed retries, so overlap can survive spawning there. -/
theorem c7_spawn_bounded_amended (cands : List CircleMAC) (num : ℕ) :
    (spawnInitLoop num cands []).length ≤ num ∧
    (spawnInitLoop num cands []).Pairwise nonOverlapMAC :=
  spawnInitLoop_invariant num cands [] (by simp) List.Pairwise.nil

/-! ## Claim C8: the delta-time ceiling -/

/-- Claim C8, counterexample: neither cited clamp enforces a 1/30 s
ceiling.  After a one-second frame gap, redraw passes DT = 0.1 s and
render passes dt = 0.05 s to the physics update, both above 1/30 s. -/
theorem c8_dt_clamp_counterexample :
    redrawDtClamp 1 > 1/30 ∧ renderDtClamp 1 > 1/30 := by
  norm_num [redrawDtClamp, renderDtClamp]

/-- Claim C8, amended: every variant clamps the delta-time, but the
ceiling is variant-specific: 0.1 s in redraw of variant B, 0.05 s in
render of src/main.js, and 0.033 s (which is at most 1/30 s) in the
step loop of part_002. -/
theorem c8_dt_clamp_amended (t : ℚ) :
    redrawDtClamp t ≤ 1/10 ∧ renderDtClamp t ≤ 1/20 ∧ stepDtClamp t ≤ 1/30 := by
  refine ⟨?_, ?_, ?_⟩
  · unfold redrawDtClamp
    split_ifs with h
    · norm_num
    · linarith
  · unfold renderDtClamp
    split_ifs with h
    · norm_num
    · linarith
  · unfold stepDtClamp
    calc min ((33:ℚ)/1000) t ≤ 33/1000 := min_le_left _ _
      _ ≤ 1/30 := by norm_num

/-! ## Claim C10: definedness of collideParticles in DT -/

/-- Claim C10, counterexample: it is not true that every pair fed to
collideParticles with DT = 0 acquires non-finite velocities: a pair
whose centers coincide (distance 0, certified by the first two
conjuncts at DT = 0) returns early through the degenerate-distance
guard with both circles unchanged and all velocities finite, before
any division by DT is reached. -/
theorem c10_dt_zero_counterexample :
    (0:ℚ) ≤ 0 ∧
    (0:ℚ)^2 = ((c10A.x + c10A.dx * 0) - (c10B.x + c10B.dx * 0))^2 +
      ((c10A.y + c10A.dy * 0) - (c10B.y + c10B.dy * 0))^2 ∧
    collideParticlesF c10A c10B 0 (9/10) 0 = some (c10A, c10B) := by
  norm_num [c10A, c10B, collideParticlesF]

/-- Claim C10, amended: for every pair that passes the
degenerate-distance guard, calling collideParticles with DT = 0
reaches the final velocity assignments, which divide by DT and
produce a non-finite number (the checked evaluation is none); and for
every DT above 0, positive radii and guard-passing distance all
divisions are by nonzero numbers, so the resulting velocities are
finite (the checked evaluation is some pair). -/
theorem c10_dt_zero_amended :
    (∀ (p1 p2 : CircleMAC) (f d : ℚ), ¬ d < 1 / 100000000 →
      collideParticlesF p1 p2 0 f d = none) ∧
    (∀ (p1 p2 : CircleMAC) (DT f d : ℚ), 0 < DT → 0 < p1.size → 0 < p2.size →
      ¬ d < 1 / 100000000 → ∃ q, collideParticlesF p1 p2 DT f d = some q) := by
  constructor
  · intro p1 p2 f d hd
    have hd0 : d ≠ 0 := fun h => hd (by rw [h]; norm_num)
    unfold collideParticlesF
    rw [if_neg hd]
    by_cases hM : p1.size * p1.size + p2.size * p2.size = 0 <;>
      simp [divF, hd0, hM]
  · intro p1 p2 DT f d hDT h1 h2 hd
    have hd0 : d ≠ 0 := fun h => hd (by rw [h]; norm_num)
    have hM : p1.size * p1.size + p2.size * p2.size ≠ 0 := by positivity
    unfold collideParticlesF
    rw [if_neg hd]
    simp [divF, hd0, hM, ne_of_gt hDT]

/-- Witness for the amended C10: the coincident-center pair moved
apart to distance 2 (so the guard passes) is none at DT = 0 and some
at DT = 1/10. -/
theorem c10_dt_zero_amended_witness :
    collideParticlesF c10A { c10B with x := 2 } 0 (9/10) 2 = none ∧
    ∃ q, collideParticlesF c10A { c10B with x := 2 } (1/10) (9/10) 2 = some q := by
  constructor
  · exact c10_dt_zero_amended.1 c10A { c10B with x := 2 } (9/10) 2 (by norm_num)
  · exact c10_dt_zero_amended.2 c10A { c10B with x := 2 } (1/10) (9/10) 2
      (by norm_num) (by norm_num [c10A]) (by norm_num [c10B]) (by norm_num)

/-! ## Claim C9: bucketed broad phase versus all-pairs iteration -/

theorem bucketFind_insert (bs : List ((ℤ × ℤ) × List ℕ)) (k0 : ℤ × ℤ) (i : ℕ) (k : ℤ × ℤ) :
    bucketFind (bucketInsert bs k0 i) k =
      if k = k0 then bucketFind bs k ++ [i] else bucketFind bs k := by
  induction bs with
  | nil =>
    by_cases hk : k = k0
    · subst hk
      simp [bucketInsert, bucketFind]
    · have h2 : k0 ≠ k := Ne.symm hk
      simp [bucketInsert, bucketFind, hk, h2]
  | cons e rest ih =>
    obtain ⟨k1, l⟩ := e
    by_cases h1 : k1 = k0
    · subst h1
      rw [show bucketInsert ((k1, l) :: rest) k1 i = (k1, l ++ [i]) :: rest from by
        simp [bucketInsert]]
      by_cases hk : k = k1
      · subst hk
        simp [bucketFind]
      · have h2 : k1 ≠ k := Ne.symm hk
        simp [bucketFind, h2, hk]
    · rw [show bucketInsert ((k1, l) :: rest) k0 i = (k1, l) :: bucketInsert rest k0 i from by
        simp [bucketInsert, h1]]
      by_cases hk : k = k1
      · subst hk
        have hk0 : ¬ k = k0 := fun h => h1 (by rw [h])
        simp [bucketFind, hk0]
      · have h2 : k1 ≠ k := Ne.symm hk
        simp [bucketFind, h2, ih]

theorem mem_bucketFind_buildGo :
    ∀ (l : List Circle5) (n : ℕ) (bs : List ((ℤ × ℤ) × List ℕ)) (k : ℤ × ℤ) (j : ℕ),
      j ∈ bucketFind (buildGo n l bs) k ↔
        j ∈ bucketFind bs k ∨ ∃ m c, l.get? m = some c ∧ j = n + m ∧ cellOf c = k := by
  intro l
  induction l with
  | nil =>
    intro n bs k j
    simp [buildGo]
  | cons c0 rest ih =>
    intro n bs k j
    rw [show buildGo n (c0 :: rest) bs =
      buildGo (n + 1) rest (bucketInsert bs (cellOf c0) n) from rfl]
    rw [ih, bucketFind_insert]
    constructor
    · rintro (h | ⟨m, c, hg, hj, hc⟩)
      · by_cases hk : k = cellOf c0
        · rw [if_pos hk, List.mem_append, List.mem_singleton] at h
          rcases h with h | h
          · exact Or.inl h
          · exact Or.inr ⟨0, c0, rfl, by omega, hk.symm⟩
        · rw [if_neg hk] at h
          exact Or.inl h
      · exact Or.inr ⟨m + 1, c, hg, by omega, hc⟩
    · rintro (h | ⟨m, c, hg, hj, hc⟩)
      · left
        by_cases hk : k = cellOf c0
        · rw [if_pos hk, List.mem_append]
          exact Or.inl h
        · rw [if_neg hk]
          exact h
      · cases m with
        | zero =>
          left
          have hc0 : c0 = c := by simpa using hg
          subst hc0
          rw [if_pos hc.symm, List.mem_append, List.mem_singleton]
          right
          omega
        | succ m1 =>
          right
          exact ⟨m1, c, by simpa using hg, by omega, hc⟩

theorem entry_of_mem_bucketFind (bs : List ((ℤ × ℤ) × List ℕ)) (k : ℤ × ℤ) (j : ℕ)
    (h : j ∈ bucketFind bs k) : ∃ e ∈ bs, e.1 = k ∧ e.2 = bucketFind bs k := by
  induction bs with
  | nil => simp [bucketFind] at h
  | cons e rest ih =>
    by_cases hk : e.1 = k
    · exact ⟨e, List.mem_cons_self _ _, hk, by simp [bucketFind, hk]⟩
    · rw [show bucketFind (e :: rest) k = bucketFind rest k from by simp [bucketFind, hk]] at h ⊢
      obtain ⟨e1, he1, hk1, hf⟩ := ih h
      exact ⟨e1, List.mem_cons_of_mem _ he1, hk1, hf⟩

theorem bucketInsert_entry_mem (bs : List ((ℤ × ℤ) × List ℕ)) (k0 : ℤ × ℤ) (i : ℕ) :
    ∀ e ∈ bucketInsert bs k0 i, ∀ j ∈ e.2, (∃ e1 ∈ bs, j ∈ e1.2) ∨ j = i := by
  induction bs with
  | nil =>
    intro e he j hj
    simp [bucketInsert] at he
    subst he
    simp at hj
    exact Or.inr hj
  | cons e0 rest ih =>
    obtain ⟨k1, l⟩ := e0
    intro e he j hj
    by_cases h1 : k1 = k0
    · subst h1
      rw [show bucketInsert ((k1, l) :: rest) k1 i = (k1, l ++ [i]) :: rest from by
        simp [bucketInsert]] at he
      rcases List.mem_cons.mp he with he | he
      · subst he
        simp only [List.mem_append, List.mem_singleton] at hj
        rcases hj with hj | hj
        · exact Or.inl ⟨(k1, l), List.mem_cons_self _ _, hj⟩
        · exact Or.inr hj
      · exact Or.inl ⟨e, List.mem_cons_of_mem _ he, hj⟩
    · rw [show bucketInsert ((k1, l) :: rest) k0 i = (k1, l) :: bucketInsert rest k0 i from by
        simp [bucketInsert, h1]] at he
      rcases List.mem_cons.mp he with he | he
      · subst he
        exact Or.inl ⟨(k1, l), List.mem_cons_self _ _, hj⟩
      · rcases ih e he j hj with ⟨e1, he1, hj1⟩ | hj1
        · exact Or.inl ⟨e1, List.mem_cons_of_mem _ he1, hj1⟩
        · exact Or.inr hj1

theorem buildGo_entry_mem :
    ∀ (l : List Circle5) (n : ℕ) (bs : List ((ℤ × ℤ) × List ℕ)),
      ∀ e ∈ buildGo n l bs, ∀ j ∈ e.2,
        (∃ e1 ∈ bs, j ∈ e1.2) ∨ (n ≤ j ∧ j < n + l.length) := by
  intro l
  induction l with
  | nil =>
    intro n bs e he j hj
    exact Or.inl ⟨e, he, hj⟩
  | cons c0 rest ih =>
    intro n bs e he j hj
    rw [show buildGo n (c0 :: rest) bs =
      buildGo (n + 1) rest (bucketInsert bs (cellOf c0) n) from rfl] at he
    rcases ih (n + 1) (bucketInsert bs (cellOf c0) n) e he j hj with h | h
    · obtain ⟨e1, he1, hj1⟩ := h
      rcases bucketInsert_entry_mem bs (cellOf c0) n e1 he1 j hj1 with h2 | h2
      · exact Or.inl h2
      · right
        subst h2
        simp
    · right
      simp only [List.length_cons]
      omega

theorem mem_dedupPairs :
    ∀ (l seen : List (ℕ × ℕ)) (p : ℕ × ℕ),
      p ∈ dedupPairs seen l ↔ p ∈ l ∧ p ∉ seen := by
  intro l
  induction l with
  | nil => intro seen p; simp [dedupPairs]
  | cons q rest ih =>
    intro seen p
    unfold dedupPairs
    by_cases hq : q ∈ seen
    · rw [if_pos hq, ih]
      constructor
      · rintro ⟨h1, h2⟩
        exact ⟨List.mem_cons_of_mem _ h1, h2⟩
      · rintro ⟨h1, h2⟩
        rcases List.mem_cons.mp h1 with h1 | h1
        · subst h1
          exact absurd hq h2
        · exact ⟨h1, h2⟩
    · rw [if_neg hq]
      constructor
      · intro h
        rcases List.mem_cons.mp h with h | h
        · subst h
          exact ⟨List.mem_cons_self _ _, hq⟩
        · rw [ih] at h
          refine ⟨List.mem_cons_of_mem _ h.1, ?_⟩
          intro hp
          exact h.2 (List.mem_cons_of_mem _ hp)
      · rintro ⟨h1, h2⟩
        rcases List.mem_cons.mp h1 with h1 | h1
        · subst h1
          exact List.mem_cons_self _ _
        · by_cases hpq : p = q
          · subst hpq
            exact List.mem_cons_self _ _
          · apply List.mem_cons_of_mem
            rw [ih]
            refine ⟨h1, ?_⟩
            intro hp
            rcases List.mem_cons.mp hp with hp | hp
            · exact hpq hp
            · exact h2 hp

theorem nodup_dedupPairs :
    ∀ (l seen : List (ℕ × ℕ)), (dedupPairs seen l).Nodup := by
  intro l
  induction l with
  | nil => intro seen; simp [dedupPairs]
  | cons q rest ih =>
    intro seen
    unfold dedupPairs
    by_cases hq : q ∈ seen
    · rw [if_pos hq]
      exact ih seen
    · rw [if_neg hq]
      refine List.Nodup.cons ?_ (ih (q :: seen))
      intro hmem
      have := (mem_dedupPairs rest (q :: seen) q).mp hmem
      exact this.2 (List.mem_cons_self _ _)

theorem mem_offsets (a b : ℤ) (ha1 : -1 ≤ a) (ha2 : a ≤ 1) (hb1 : -1 ≤ b) (hb2 : b ≤ 1) :
    (a, b) ∈ offsets := by
  unfold offsets
  interval_cases a <;> interval_cases b <;> simp

theorem floor_adjacent (u v : ℚ) (h : |u - v| < 1) :
    -1 ≤ ⌊v⌋ - ⌊u⌋ ∧ ⌊v⌋ - ⌊u⌋ ≤ 1 := by
  rw [abs_lt] at h
  have h1 : u ≤ v + 1 := by linarith [h.1]
  have h2 : v ≤ u + 1 := by linarith [h.2]
  have f1 : ⌊u⌋ ≤ ⌊v⌋ + 1 := by
    calc ⌊u⌋ ≤ ⌊v + 1⌋ := Int.floor_le_floor h1
      _ = ⌊v⌋ + 1 := by
        rw [show v + 1 = v + (1 : ℤ) from by norm_num, Int.floor_add_int]
  have f2 : ⌊v⌋ ≤ ⌊u⌋ + 1 := by
    calc ⌊v⌋ ≤ ⌊u + 1⌋ := Int.floor_le_floor h2
      _ = ⌊u⌋ + 1 := by
        rw [show u + 1 = u + (1 : ℤ) from by norm_num, Int.floor_add_int]
  omega

theorem cell_adjacent (a b : Circle5)
    (hra0 : 0 ≤ a.radius) (hra : 2 * a.radius ≤ bucketSize)
    (hrb0 : 0 ≤ b.radius) (hrb : 2 * b.radius ≤ bucketSize)
    (hov : (b.x - a.x) * (b.x - a.x) + (b.y - a.y) * (b.y - a.y) <
      (a.radius + b.radius) * (a.radius + b.radius)) :
    (-1 ≤ (cellOf b).1 - (cellOf a).1 ∧ (cellOf b).1 - (cellOf a).1 ≤ 1) ∧
    (-1 ≤ (cellOf b).2 - (cellOf a).2 ∧ (cellOf b).2 - (cellOf a).2 ≤ 1) := by
  have hs : (0:ℚ) < bucketSize := by norm_num [bucketSize]
  have hsum : a.radius + b.radius ≤ bucketSize := by linarith
  have h1 : (a.radius + b.radius) * (a.radius + b.radius) ≤ bucketSize * bucketSize :=
    mul_self_le_mul_self (by linarith) hsum
  have hx2 : |b.x - a.x| * |b.x - a.x| < bucketSize * bucketSize := by
    calc |b.x - a.x| * |b.x - a.x| = (b.x - a.x) * (b.x - a.x) := abs_mul_abs_self _
      _ ≤ (b.x - a.x) * (b.x - a.x) + (b.y - a.y) * (b.y - a.y) := by
          nlinarith [mul_self_nonneg (b.y - a.y)]
      _ < (a.radius + b.radius) * (a.radius + b.radius) := hov
      _ ≤ bucketSize * bucketSize := h1
  have hy2 : |b.y - a.y| * |b.y - a.y| < bucketSize * bucketSize := by
    calc |b.y - a.y| * |b.y - a.y| = (b.y - a.y) * (b.y - a.y) := abs_mul_abs_self _
      _ ≤ (b.x - a.x) * (b.x - a.x) + (b.y - a.y) * (b.y - a.y) := by
          nlinarith [mul_self_nonneg (b.x - a.x)]
      _ < (a.radius + b.radius) * (a.radius + b.radius) := hov
      _ ≤ bucketSize * bucketSize := h1
  have hx : |b.x - a.x| < bucketSize := by
    nlinarith [abs_nonneg (b.x - a.x)]
  have hy : |b.y - a.y| < bucketSize := by
    nlinarith [abs_nonneg (b.y - a.y)]
  have hux : |(a.x + 1) / bucketSize - (b.x + 1) / bucketSize| < 1 := by
    rw [show (a.x + 1) / bucketSize - (b.x + 1) / bucketSize =
      (a.x - b.x) / bucketSize from by ring]
    rw [abs_div, abs_of_pos hs, div_lt_one hs, abs_sub_comm]
    exact hx
  have huy : |(a.y + 1) / bucketSize - (b.y + 1) / bucketSize| < 1 := by
    rw [show (a.y + 1) / bucketSize - (b.y + 1) / bucketSize =
      (a.y - b.y) / bucketSize from by ring]
    rw [abs_div, abs_of_pos hs, div_lt_one hs, abs_sub_comm]
    exact hy
  have fx := floor_adjacent _ _ hux
  have fy := floor_adjacent _ _ huy
  unfold cellOf
  dsimp only
  exact ⟨⟨fx.1, fx.2⟩, ⟨fy.1, fy.2⟩⟩

theorem mem_rawBucketPairs_intro (bs : List ((ℤ × ℤ) × List ℕ)) (e : (ℤ × ℤ) × List ℕ)
    (off : ℤ × ℤ) (i j : ℕ) (he : e ∈ bs) (hoff : off ∈ offsets) (hi : i ∈ e.2)
    (hj : j ∈ bucketFind bs (e.1.1 + off.1, e.1.2 + off.2)) (hne : i ≠ j) :
    normPair i j ∈ rawBucketPairs bs := by
  unfold rawBucketPairs
  rw [List.mem_flatMap]
  refine ⟨e, he, ?_⟩
  rw [List.mem_flatMap]
  refine ⟨off, hoff, ?_⟩
  rw [List.mem_flatMap]
  refine ⟨i, hi, ?_⟩
  rw [List.mem_filterMap]
  exact ⟨j, hj, by rw [if_neg hne]⟩

theorem mem_rawBucketPairs_elim (bs : List ((ℤ × ℤ) × List ℕ)) (p : ℕ × ℕ)
    (hp : p ∈ rawBucketPairs bs) :
    ∃ e ∈ bs, ∃ i ∈ e.2, ∃ k, ∃ j ∈ bucketFind bs k, i ≠ j ∧ p = normPair i j := by
  unfold rawBucketPairs at hp
  rw [List.mem_flatMap] at hp
  obtain ⟨e, he, hp⟩ := hp
  rw [List.mem_flatMap] at hp
  obtain ⟨off, hoff, hp⟩ := hp
  rw [List.mem_flatMap] at hp
  obtain ⟨i, hi, hp⟩ := hp
  rw [List.mem_filterMap] at hp
  obtain ⟨j, hj, hij⟩ := hp
  by_cases hne : i = j
  · rw [if_pos hne] at hij
    cases hij
  · rw [if_neg hne] at hij
    exact ⟨e, he, i, hi, _, j, hj, hne, (Option.some.inj hij).symm⟩

theorem mem_allPairs (n : ℕ) (p : ℕ × ℕ) :
    p ∈ allPairs n ↔ p.1 < p.2 ∧ p.2 < n := by
  obtain ⟨i, j⟩ := p
  unfold allPairs
  rw [List.mem_flatMap]
  constructor
  · rintro ⟨i0, hi0, hp⟩
    rw [List.mem_map] at hp
    obtain ⟨j0, hj0, hpe⟩ := hp
    rw [List.mem_filter] at hj0
    obtain ⟨hj0r, hlt⟩ := hj0
    cases hpe
    rw [decide_eq_true_eq] at hlt
    exact ⟨hlt, List.mem_range.mp hj0r⟩
  · rintro ⟨h1, h2⟩
    refine ⟨i, List.mem_range.mpr (by omega), ?_⟩
    rw [List.mem_map]
    exact ⟨j, List.mem_filter.mpr ⟨List.mem_range.mpr h2, by simpa using h1⟩, rfl⟩

/-- Claim C9: for every circle list whose diameters are at most the
grid cell size, one pass of the bucketed broad phase invokes the pair
resolver at most once per unordered pair of distinct circles (the
invocation list is duplicate-free and each pair is normalised with
the first index below the second and both in range), at least once
for every overlapping pair, and hence resolves exactly the same set
of overlapping pairs as the all-pairs iteration with the i < j
convention.  The buckets are built once from the initial positions,
so the invocation list is determined by the input list. -/
theorem c9_bucket_equivalence (cs : List Circle5)
    (hr : ∀ c ∈ cs, 0 ≤ c.radius ∧ 2 * c.radius ≤ bucketSize) :
    (bucketPassPairs cs).Nodup ∧
    (∀ p ∈ bucketPassPairs cs, p.1 < p.2 ∧ p.2 < cs.length) ∧
    (∀ i j, i < j → j < cs.length → pairOverlapB cs (i, j) = true →
      (i, j) ∈ bucketPassPairs cs) ∧
    (∀ p, p ∈ (bucketPassPairs cs).filter (pairOverlapB cs) ↔
      p ∈ (allPairs cs.length).filter (pairOverlapB cs)) := by
  have sound : ∀ p ∈ bucketPassPairs cs, p.1 < p.2 ∧ p.2 < cs.length := by
    intro p hp
    rw [bucketPassPairs, mem_dedupPairs] at hp
    obtain ⟨e, he, i, hi, k, j, hj, hne, hpe⟩ := mem_rawBucketPairs_elim _ p hp.1
    rw [show buildBuckets cs = buildGo 0 cs [] from rfl] at he hj
    have hin : i < cs.length := by
      rcases buildGo_entry_mem cs 0 [] e he i hi with h | h
      · obtain ⟨e1, he1, _⟩ := h
        simp at he1
      · omega
    have hjn : j < cs.length := by
      obtain ⟨e1, he1, hk1, hf⟩ := entry_of_mem_bucketFind _ _ _ hj
      rw [← hf] at hj
      rcases buildGo_entry_mem cs 0 [] e1 he1 j hj with h | h
      · obtain ⟨e2, he2, _⟩ := h
        simp at he2
      · omega
    subst hpe
    unfold normPair
    split_ifs with hij
    · exact ⟨hij, hjn⟩
    · exact ⟨by omega, hin⟩
  have compl : ∀ i j, i < j → j < cs.length → pairOverlapB cs (i, j) = true →
      (i, j) ∈ bucketPassPairs cs := by
    intro i j hij hjn hov
    unfold pairOverlapB at hov
    cases hgi : cs.get? i with
    | none => rw [hgi] at hov; simp at hov
    | some a =>
    cases hgj : cs.get? j with
    | none => rw [hgi, hgj] at hov; simp at hov
    | some b =>
    rw [hgi, hgj] at hov
    unfold overlapB at hov
    rw [decide_eq_true_eq] at hov
    have hra := hr a (List.get?_mem hgi)
    have hrb := hr b (List.get?_mem hgj)
    have hadj := cell_adjacent a b hra.1 hra.2 hrb.1 hrb.2 hov
    have hi : i ∈ bucketFind (buildBuckets cs) (cellOf a) := by
      rw [show buildBuckets cs = buildGo 0 cs [] from rfl, mem_bucketFind_buildGo]
      right
      exact ⟨i, a, hgi, by omega, rfl⟩
    obtain ⟨e, he, hek, hef⟩ := entry_of_mem_bucketFind _ _ _ hi
    have hj2 : j ∈ bucketFind (buildBuckets cs) (cellOf b) := by
      rw [show buildBuckets cs = buildGo 0 cs [] from rfl, mem_bucketFind_buildGo]
      right
      exact ⟨j, b, hgj, by omega, rfl⟩
    have hoff : ((cellOf b).1 - (cellOf a).1, (cellOf b).2 - (cellOf a).2) ∈ offsets :=
      mem_offsets _ _ hadj.1.1 hadj.1.2 hadj.2.1 hadj.2.2
    have hkey : (e.1.1 + ((cellOf b).1 - (cellOf a).1),
        e.1.2 + ((cellOf b).2 - (cellOf a).2)) = cellOf b := by
      rw [hek]
      have : cellOf b = ((cellOf b).1, (cellOf b).2) := rfl
      rw [this]
      refine Prod.ext ?_ ?_ <;> dsimp <;> ring
    have hraw := mem_rawBucketPairs_intro (buildBuckets cs) e
      ((cellOf b).1 - (cellOf a).1, (cellOf b).2 - (cellOf a).2) i j he hoff
      (by rw [hef]; exact hi)
      (by rw [hkey]; exact hj2)
      (by omega)
    have hnorm : normPair i j = (i, j) := by
      unfold normPair
      rw [if_pos hij]
    rw [bucketPassPairs, mem_dedupPairs]
    rw [hnorm] at hraw
    exact ⟨hraw, by simp⟩
  refine ⟨nodup_dedupPairs _ _, sound, compl, ?_⟩
  intro p
  rw [List.mem_filter, List.mem_filter]
  constructor
  · rintro ⟨h1, h2⟩
    exact ⟨(mem_allPairs _ _).mpr (sound p h1), h2⟩
  · rintro ⟨h1, h2⟩
    have hp := (mem_allPairs _ _).mp h1
    exact ⟨compl p.1 p.2 hp.1 hp.2 h2, h2⟩

/-- Witness for C9 on a concrete two-circle list with an overlapping
pair within the radius bound. -/
theorem c9_bucket_equivalence_witness :
    (bucketPassPairs [c5A, { c5A with x := 1/10 }]).Nodup ∧
    (∀ p ∈ bucketPassPairs [c5A, { c5A with x := 1/10 }],
      p.1 < p.2 ∧ p.2 < ([c5A, { c5A with x := 1/10 }] : List Circle5).length) ∧
    (∀ i j, i < j → j < ([c5A, { c5A with x := 1/10 }] : List Circle5).length →
      pairOverlapB [c5A, { c5A with x := 1/10 }] (i, j) = true →
      (i, j) ∈ bucketPassPairs [c5A, { c5A with x := 1/10 }]) ∧
    (∀ p, p ∈ (bucketPassPairs [c5A, { c5A with x := 1/10 }]).filter
        (pairOverlapB [c5A, { c5A with x := 1/10 }]) ↔
      p ∈ (allPairs ([c5A, { c5A with x := 1/10 }] : List Circle5).length).filter
        (pairOverlapB [c5A, { c5A with x := 1/10 }])) :=
  c9_bucket_equivalence [c5A, { c5A with x := 1/10 }] (by
    intro c hc
    fin_cases hc <;> norm_num [c5A, bucketSize])


end BC
